import Mathlib

/-!
Shallow embedding of the Avalam-engine-bots support layer:
the Checkers diagonal-board renderer (`GameEngines/Checkers/repr.py`),
the Checkers initial board (`GameEngines/Checkers/PythonEngine/utils.py`),
and the legal-move cache wrapper applied in `GameEngines/Avalam/BoardState.py`.
-/

/-- Cell values are numpy float64 entries.  The boards only ever hold
integral values or `nan`, so we embed the value domain as an integer or
the distinguished not-a-number element. -/
inductive PyFloat where
  | num (q : Int)
  | nan
deriving DecidableEq, Repr

/-- A board grid: a rectangular (in practice) list of rows of cells,
embedding the 2-D numpy array `self.board`. -/
abbrev Grid := List (List PyFloat)

/-- `v > m` on float64: any comparison with `nan` is false. -/
def pyGt : PyFloat → Int → Bool
  | .num q, m => m < q
  | .nan, _ => false

/-- `v < m` on float64: any comparison with `nan` is false. -/
def pyLt : PyFloat → Int → Bool
  | .num q, m => q < m
  | .nan, _ => false

/-- `v == m` on float64: `nan` compares unequal to everything. -/
def pyEq : PyFloat → Int → Bool
  | .num q, m => q == m
  | .nan, _ => false

/-- numpy elementwise `v != m`; note `nan != 3` is true. -/
def pyNe (v : PyFloat) (m : Int) : Bool := !(pyEq v m)

/-- Python `int(v)` truncation.  The renderer only applies it under a
`v > 0` or `v < 0` guard, so the `nan` case (which would raise in
Python) is unreachable there; we give it a junk value. -/
def pyInt : PyFloat → Int
  | .num q => q
  | .nan => 0

/-- numpy `a.diagonal(k)` for a 2-D array: the elements `a[i][i+k]`
for every row index `i` such that `i+k` is a valid column. -/
def diag (g : Grid) (k : Int) : List PyFloat :=
  (List.range g.length).filterMap (fun (i : Nat) =>
    let j : Int := (i : Int) + k
    if j < 0 then none
    else (g.get? i).bind (fun row => row.get? j.toNat))

/-- colorama `Fore.LIGHTBLUE_EX`. -/
def LIGHTBLUE_EX : String := "\x1b[94m"

/-- colorama `Fore.LIGHTYELLOW_EX`. -/
def LIGHTYELLOW_EX : String := "\x1b[93m"

/-- colorama `Fore.RESET`. -/
def FORE_RESET : String := "\x1b[39m"

/-- The loop body over one cell of a diagonal: a colored digit for a
positive value, a colored absolute digit for a negative value, a blank
for zero; nothing is appended otherwise (in particular for `nan`). -/
def cellGlyph (v : PyFloat) : Option String :=
  if pyGt v 0 then some (LIGHTBLUE_EX ++ toString (pyInt v) ++ FORE_RESET)
  else if pyLt v 0 then some (LIGHTYELLOW_EX ++ toString (pyInt v).natAbs ++ FORE_RESET)
  else if pyEq v 0 then some " "
  else none

/-- `line = line[line != 3]` followed by the glyph-accumulating loop:
the `val_acc` list built for one diagonal. -/
def rowGlyphs (l : List PyFloat) : List String :=
  (l.filter (fun v => pyNe v 3)).filterMap cellGlyph

/-- Formatting of the diagonal at offset `k`, printed as row `i`:
join the glyphs with the wall separator and stagger the leading or
trailing wall by row parity (the loop body of `_repr` with the
diagonal offset abstracted). -/
def fmtDiagLine (board : Grid) (k : Int) (i : Nat) : String :=
  let joined := String.intercalate " █ " (rowGlyphs (diag board k))
  toString i ++ " " ++ (if i % 2 == 1 then joined ++ " █" else "█ " ++ joined)

/-- One content line of the Checkers renderer: the source extracts
`board.diagonal(4-i)`. -/
def reprLine (board : Grid) (i : Nat) : String :=
  fmtDiagLine board (4 - (i : Int)) i

/-- The header row `'  ' + ' '.join(f'{i}' for i in range(8))`. -/
def headerLine : String :=
  "  " ++ String.intercalate " " ((List.range 8).map toString)

/-- The accumulated `line_acc` of `_repr`: the header followed by the
eight diagonal content lines. -/
def reprLines (board : Grid) : List String :=
  headerLine :: (List.range 8).map (reprLine board)

/-- `_repr` from `GameEngines/Checkers/repr.py`: the full rendered
string, the lines joined by newlines. -/
def _repr (board : Grid) : String :=
  String.intercalate "\n" (reprLines board)

/-- `board_setup` from `GameEngines/Checkers/PythonEngine/utils.py`:
the fixed initial Checkers board. -/
def board_setup : Grid :=
  let n : PyFloat := .nan
  let p : PyFloat := .num 1
  let m : PyFloat := .num (-1)
  let z : PyFloat := .num 0
  [ [n, n, n, p, p, n, n, n],
    [n, n, z, p, p, p, n, n],
    [n, m, z, z, p, p, p, n],
    [m, m, m, z, z, p, p, p],
    [n, m, m, m, z, z, p, n],
    [n, n, m, m, m, z, n, n],
    [n, n, n, m, m, n, n, n] ]

/-- The spec's stated diagonal selection for a printed row: offset
`(N/2 - 1 - i)` from the main diagonal with `N = 8`, formatted the
same way.  Written from the spec's words, for comparison with
`reprLine`. -/
def specLine (board : Grid) (i : Nat) : String :=
  fmtDiagLine board (8 / 2 - 1 - (i : Int)) i

/-- An 8×8 grid of pairwise distinct positive values, used to separate
the diagonals from one another. -/
def gDistinct : Grid :=
  (List.range 8).map (fun r => (List.range 8).map (fun c => PyFloat.num (r * 8 + c + 1)))

/-- Modelled from the spec: the internal mapping of the Move Cache
(`cache_moves` lives in `GameEngines/_generic`, which is not under
`src/`).  Entries pair a board-state key with the cached legal-move
collection (§3 CacheEntry). -/
structure MoveCache (β μ : Type) where
  entries : List (β × List μ)

/-- Modelled from the spec: cache lookup by key; per §4.1 we default to
content keying, so the key is the board value itself. -/
def MoveCache.lookup [DecidableEq β] (c : MoveCache β μ) (b : β) : Option (List μ) :=
  (c.entries.find? (fun p => p.1 == b)).map Prod.snd

/-- Modelled from the spec: `cache_moves` wraps a legal-move generation
operation.  A hit returns the cached collection; a miss runs the wrapped
operation, stores the result only on success, and passes a failure
through unchanged without touching the cache (§4.1, §7). -/
def cache_moves [DecidableEq β] (f : β → Except ε (List μ)) (c : MoveCache β μ) (b : β) :
    Except ε (List μ) × MoveCache β μ :=
  match c.lookup b with
  | some ms => (.ok ms, c)
  | none =>
    match f b with
    | .ok ms => (.ok ms, ⟨(b, ms) :: c.entries⟩)
    | .error e => (.error e, c)

/-- Cache well-formedness (§3 invariant): every entry's moves equal
what a direct call on its key would return. -/
def MoveCache.WF [DecidableEq β] (f : β → Except ε (List μ)) (c : MoveCache β μ) : Prop :=
  ∀ p ∈ c.entries, f p.1 = .ok p.2

/-- A concrete legal-move generator for witnesses. -/
def demoMoves (n : Nat) : Except Unit (List Nat) := .ok [n]

/-- A concrete failing legal-move generator for witnesses. -/
def demoFail (_ : Nat) : Except Unit (List Nat) := .error ()

/-- The empty cache. -/
def emptyCache : MoveCache Nat Nat := ⟨[]⟩

/-- C1: for every board state, the cached legal-move operation returns
exactly the collection the unwrapped operation would return (hence the
same set), and querying preserves the cache invariant. -/
theorem cache_moves_transparent {β μ ε : Type} [DecidableEq β]
    (f : β → Except ε (List μ)) (c : MoveCache β μ) (b : β)
    (h : MoveCache.WF f c) :
    (cache_moves f c b).1 = f b ∧ MoveCache.WF f (cache_moves f c b).2 := by
  unfold cache_moves
  cases hl : c.lookup b with
  | some ms =>
    have hfind := hl
    unfold MoveCache.lookup at hfind
    cases hf : c.entries.find? (fun p => p.1 == b) with
    | none => rw [hf] at hfind; simp at hfind
    | some p =>
      rw [hf] at hfind
      simp at hfind
      have hmem : p ∈ c.entries := List.mem_of_find?_eq_some hf
      have hkey : p.1 = b := by
        have := List.find?_some hf
        exact eq_of_beq this
      have := h p hmem
      rw [hkey, hfind] at this
      exact ⟨this.symm, h⟩
  | none =>
    cases hf : f b with
    | ok ms =>
      refine ⟨rfl, ?_⟩
      intro p hp
      rcases List.mem_cons.mp hp with h1 | h2
      · rw [h1]; exact hf
      · exact h p h2
    | error e => exact ⟨rfl, h⟩

/-- Witness for C1 at a concrete generator, empty cache and key 5. -/
theorem cache_moves_transparent_witness :
    MoveCache.WF demoMoves emptyCache ∧
    ((cache_moves demoMoves emptyCache 5).1 = demoMoves 5 ∧
      MoveCache.WF demoMoves (cache_moves demoMoves emptyCache 5).2) :=
  have h : MoveCache.WF demoMoves emptyCache := by
    intro p hp
    exact absurd hp (List.not_mem_nil p)
  ⟨h, cache_moves_transparent demoMoves emptyCache 5 h⟩

/-- C8: when the wrapped computation fails on an uncached board, the
cache re-raises that very error and its state is unchanged. -/
theorem cache_moves_error_passthrough {β μ ε : Type} [DecidableEq β]
    (f : β → Except ε (List μ)) (c : MoveCache β μ) (b : β) (e : ε)
    (hmiss : c.lookup b = none) (herr : f b = .error e) :
    cache_moves f c b = (.error e, c) := by
  unfold cache_moves
  rw [hmiss, herr]

/-- Witness for C8 at a concrete failing generator and empty cache. -/
theorem cache_moves_error_passthrough_witness :
    emptyCache.lookup 7 = none ∧ demoFail 7 = .error () ∧
    cache_moves demoFail emptyCache 7 = (.error (), emptyCache) :=
  ⟨rfl, rfl, cache_moves_error_passthrough demoFail emptyCache 7 () rfl rfl⟩

/-- C4: the renderer is a pure function of the grid contents — in this
embedding it is a mathematical function, so rendering the same board
twice yields byte-identical strings. -/
theorem repr_deterministic (board : Grid) : _repr board = _repr board := rfl

/-- C10: `board_setup` always returns the same grid — a constant — of
7 rows by 8 columns (non-square), holding exactly twelve `1` cells,
twelve `-1` cells, eight `0` cells and twenty-four `nan` cells. -/
theorem board_setup_shape_and_counts :
    board_setup.length = 7 ∧
    (board_setup.all fun r => r.length == 8) = true ∧
    board_setup.flatten.count (PyFloat.num 1) = 12 ∧
    board_setup.flatten.count (PyFloat.num (-1)) = 12 ∧
    board_setup.flatten.count (PyFloat.num 0) = 8 ∧
    board_setup.flatten.count PyFloat.nan = 24 := by
  decide

/-- Counterexample to C3: the game's own initial board is 7 rows by 8
columns — not square and not of size 8 — yet the renderer produces the
full 9-line output instead of failing; no `MalformedBoardError` exists
in the code. -/
theorem malformed_board_not_rejected :
    board_setup.length ≠ 8 ∧
    (board_setup.all fun r => r.length == 8) = true ∧
    (reprLines board_setup).length = 9 := by
  decide

/-- C3 (amended): the renderer performs no shape validation and can
never fail: on every grid whatsoever it produces a complete rendering
of exactly 9 lines (header plus eight diagonal rows). -/
theorem repr_never_fails (board : Grid) : (reprLines board).length = 9 := by
  simp [reprLines]

/-- Counterexample to C6: the known initial arrangement is not an 8×8
grid — it has 7 rows (of 8 columns each). -/
theorem initial_board_not_square :
    board_setup.length = 7 ∧ (7 : Nat) ≠ 8 := by
  decide

set_option maxRecDepth 20000 in
/-- C6 (amended): on the fixed 7×8 diamond board with the known initial
arrangement, the renderer emits exactly one header line listing the
column indices 0..7 followed by exactly 8 content lines — 9
newline-separated lines in total. -/
theorem initial_render_shape :
    (reprLines board_setup).length = 9 ∧
    (reprLines board_setup).head? = some "  0 1 2 3 4 5 6 7" ∧
    (_repr board_setup).data.count '\n' = 8 := by
  decide

/-- Counterexample to C2: on a grid with pairwise distinct entries, the
content line printed on row 0 is not the formatting of the diagonal at
the spec's offset `N/2 - 1 - 0 = 3`. -/
theorem diag_offset_claim_false :
    (reprLines gDistinct).get? 1 ≠ some (specLine gDistinct 0) := by
  decide

/-- C2 (amended): the diagonal printed on row `i` is the one at offset
`N/2 - i = 4 - i` from the main diagonal, not `N/2 - 1 - i`. -/
theorem reprLines_diag_offset (board : Grid) (i : Nat) (h : i < 8) :
    (reprLines board).get? (i + 1) = some (fmtDiagLine board (4 - (i : Int)) i) := by
  refine List.get?_eq_some.mpr ?_
  rw [reprLines]
  refine ⟨by simp [List.length_map, List.length_range]; omega, ?_⟩
  simp [List.getElem_map, List.getElem_range, reprLine,
    List.getElem_cons_succ]

/-- Witness for the amended C2 at the initial board and row 2. -/
theorem reprLines_diag_offset_witness :
    2 < 8 ∧ (reprLines board_setup).get? 3 = some (fmtDiagLine board_setup 2 2) :=
  ⟨by decide, reprLines_diag_offset board_setup 2 (by decide)⟩

/-- C5: a sentinel cell contributes nothing to a rendered line —
inserting a `3` (the value the filter removes) or a `nan` (the
off-board marker, which matches no glyph branch) anywhere in a
diagonal leaves the emitted glyph list unchanged, so no sentinel glyph
ever appears in the output. -/
theorem sentinel_cells_excluded (l₁ l₂ : List PyFloat) :
    rowGlyphs (l₁ ++ PyFloat.num 3 :: l₂) = rowGlyphs (l₁ ++ l₂) ∧
    rowGlyphs (l₁ ++ PyFloat.nan :: l₂) = rowGlyphs (l₁ ++ l₂) := by
  constructor <;>
    simp [rowGlyphs, List.filter_append, List.filterMap_append, List.filter,
      pyNe, pyEq, cellGlyph, pyGt, pyLt]

/-- C9: the `line != 3` filter removes exactly the cells equal to `3`;
`nan` passes the filter, matches none of the positive/negative/zero
branches, and is therefore silently omitted from the glyph list with
no error. -/
theorem nan_passes_filter_silently_omitted :
    (∀ v : PyFloat, pyNe v 3 = false ↔ v = .num 3) ∧
    pyNe PyFloat.nan 3 = true ∧
    cellGlyph PyFloat.nan = none ∧
    ∀ l : List PyFloat, rowGlyphs (PyFloat.nan :: l) = rowGlyphs l := by
  refine ⟨fun v => ?_, rfl, rfl, fun l => ?_⟩
  · cases v <;> simp [pyNe, pyEq]
  · simp [rowGlyphs, List.filter, pyNe, pyEq, cellGlyph, pyGt, pyLt]

/-- C7: a positive cell emits its digit in the player-A (light blue)
escape codes, a negative cell emits the digit of its absolute value in
the player-B (light yellow) escape codes, and a zero cell emits a bare
blank glyph with no escape codes. -/
theorem cellGlyph_branches (q : Int) :
    (0 < q → cellGlyph (.num q) = some (LIGHTBLUE_EX ++ toString q ++ FORE_RESET)) ∧
    (q < 0 → cellGlyph (.num q) = some (LIGHTYELLOW_EX ++ toString q.natAbs ++ FORE_RESET)) ∧
    cellGlyph (.num 0) = some " " := by
  refine ⟨fun h => ?_, fun h => ?_, by decide⟩
  · simp [cellGlyph, pyGt, pyInt, h]
  · have h2 : ¬ (0 < q) := by omega
    simp [cellGlyph, pyGt, pyLt, pyInt, h, h2]

/-- Witness for C7 at the concrete cells `2` and `-2`. -/
theorem cellGlyph_branches_witness :
    ((0 : Int) < 2 ∧
      cellGlyph (.num 2) = some (LIGHTBLUE_EX ++ toString (2 : Int) ++ FORE_RESET)) ∧
    ((-2 : Int) < 0 ∧
      cellGlyph (.num (-2)) =
        some (LIGHTYELLOW_EX ++ toString (Int.natAbs (-2)) ++ FORE_RESET)) :=
  ⟨⟨by decide, (cellGlyph_branches 2).1 (by decide)⟩,
    ⟨by decide, (cellGlyph_branches (-2)).2.1 (by decide)⟩⟩
